import Mathlib

/-!
# Tracing wrappers of `hnynethttp` and the wall's `twitterize` helper

A shallow embedding of

* `WrapHandler`, `WrapHandlerFunc`, `hnyTripper.RoundTrip`, `eventRoundTrip` and
  `spanRoundTrip` from `vendor/github.com/honeycombio/beeline-go/wrappers/hnynethttp/nethttp.go`;
* `twitterize` from `wall.go`.

Effects are made explicit: a wrapper returns the list of telemetry records it
handed to the emitter, the requests it passed on, the calls that reached the
underlying `http.ResponseWriter`, and whether it returned or panicked.

The packages `common`, `trace`, `propagation`, `timer` and `libhoney` are not part of
the sources at hand. What the specification fixes about them is modelled by
definitions marked as such; what it leaves open is a field of `Lib`.
-/

namespace Hny

/-! ## Data model -/

/-- A field value: a string, an integer (a status code) or a duration in milliseconds. -/
inductive Value
  | str (s : String)
  | int (n : Int)
  | ms (d : Nat)
  deriving DecidableEq, Repr

/-- The field bag of a span or event, kept as the chronological list of `AddField`
calls. -/
abbrev Fields := List (String × Value)

/-- Modelled from the spec: `add_field` of the Field Bag, "inserts/overwrites in the
Field Bag; last write wins". The call is appended to the chronological list. -/
def addField (fs : Fields) (k : String) (v : Value) : Fields :=
  fs ++ [(k, v)]

/-- The value a field bag holds for a key: the last write wins. -/
def getField : Fields → String → Option Value
  | [], _ => none
  | (k', v) :: rest, k =>
    match getField rest k with
    | some w => some w
    | none => if k' = k then some v else none

/-- Modelled from the spec: the Span of the data model (`trace.Span`), with its
trace id, span id, optional parent span id and Field Bag. -/
structure Span where
  traceId : String
  spanId : String
  parentId : Option String
  fields : Fields
  deriving DecidableEq, Repr

/-- Modelled from the spec: `add_field(span, key, value)` (`span.AddField`). -/
def Span.AddField (s : Span) (k : String) (v : Value) : Span :=
  { s with fields := addField s.fields k v }

/-- Modelled from the spec: `create_child(parent)` (`span.CreateChild`), "inherits
parent's trace_id, sets parent_span_id = parent's span_id, fresh span_id". The fresh
identifier is an argument. -/
def Span.CreateChild (parent : Span) (freshId : String) : Span :=
  { traceId := parent.traceId, spanId := freshId, parentId := some parent.spanId, fields := [] }

/-- Modelled from the spec: `send(span)` (`span.Send`), "computes duration_ms = now -
start_time, adds it as a field ... and enqueues an immutable snapshot to the Emitter".
The result is the snapshot handed to the emitter. -/
def Span.Send (s : Span) (elapsed : Nat) : Span :=
  s.AddField "duration_ms" (Value.ms elapsed)

/-- The execution context of a request: it binds at most one current span
(`trace.GetSpanFromContext`). -/
structure Context where
  span : Option Span
  deriving DecidableEq, Repr

/-- An HTTP request: method, URL (host and path), headers in the order they were added,
body, and context. -/
structure Request where
  method : String
  host : String
  path : String
  header : List (String × String)
  body : String
  ctx : Context
  deriving DecidableEq, Repr

/-- Go's `r.WithContext(ctx)`: the same request with its context replaced. -/
def Request.WithContext (r : Request) (ctx : Context) : Request :=
  { r with ctx := ctx }

/-- Go's `Header.Add`: the value is appended after the values already present. -/
def headerAdd (h : List (String × String)) (k v : String) : List (String × String) :=
  h ++ [(k, v)]

/-- Go's `Header.Get`: the first value stored under the key, or the empty string. -/
def headerGet : List (String × String) → String → String
  | [], _ => ""
  | (k', v) :: rest, k => if k' = k then v else headerGet rest k

/-- A call on an `http.ResponseWriter`. -/
inductive WriterOp
  | setHeader (k v : String)
  | writeHeader (code : Int)
  | write (data : String)
  deriving DecidableEq, Repr

/-- One run of a user handler on a request: the calls it makes on the response writer it
was given, the fields it adds to the span of its context, and whether it panics at the
end of these instead of returning. -/
structure HandlerRun where
  writes : List WriterOp
  adds : Fields
  panics : Bool
  deriving DecidableEq, Repr

/-- What `mux.Handler(r)` selects: the pattern, and for the selected handler the outcome
of the reflective name lookup `runtime.FuncForPC(reflect.ValueOf(handler).Pointer()).Name()`
and the type `reflect.TypeOf(handler).String()`. The name is `none` when the lookup
panics: `reflect.Value.Pointer` panics for a value whose kind is not a function, pointer,
map, channel, slice or string, such as a handler of struct kind. -/
structure MuxEntry where
  pattern : String
  name : Option String
  hType : String
  deriving DecidableEq, Repr

/-- The handler given to `WrapHandler`: its `ServeHTTP`, the outcome of the reflective
name lookup on it (`none` when `reflect.Value.Pointer` panics, as for a handler of struct
kind or a nil handler), and, when it is a `*http.ServeMux`, its `Handler` lookup. -/
structure Target where
  serve : Request → HandlerRun
  name : Option String
  mux : Option (Request → MuxEntry)

/-- A handler function given to `WrapHandlerFunc`, with its reflective name; the lookup
does not panic on a value of function kind. -/
structure HandlerFunc where
  call : Request → HandlerRun
  name : String

/-- The parts of the absent packages that the specification leaves open:
`StartSpanOrTraceFromHTTP r` is the span opened by `common.StartSpanOrTraceFromHTTP(r)`;
`GetRequestProps r` the request fields of `common.GetRequestProps(r)`;
`recordStatus status code` the `Status` of `common.NewResponseWriter` after a
`WriteHeader(code)` call, from its `Status` before the call;
`NewEvent` the fields of a fresh `libhoney.NewEvent()`;
`newSpanId parent` the identifier `CreateChild` generates for a child of `parent`;
`TracePropagationHTTPHeader` the name of the propagation header;
`elapsed` the milliseconds the timer measures for the call. -/
structure Lib where
  StartSpanOrTraceFromHTTP : Request → Span
  GetRequestProps : Request → Fields
  recordStatus : Int → Int → Int
  NewEvent : Fields
  newSpanId : Span → String
  TracePropagationHTTPHeader : String
  elapsed : Nat

/-- Modelled from the spec: `common.NewResponseWriter(w)`, the wrapper that "replace[s]
the writer ... to catch the status code" and "never changes HTTP status codes or
response bodies". `Wrapped` lists the calls forwarded to `w`; `Status` is the captured
status code, 0 when none was captured. -/
structure ResponseWriter where
  Wrapped : List WriterOp
  Status : Int
  deriving DecidableEq, Repr

/-- Modelled from the spec: a fresh `common.NewResponseWriter(w)`. -/
def NewResponseWriter : ResponseWriter :=
  { Wrapped := [], Status := 0 }

/-- Modelled from the spec: one call on `wrappedWriter.Wrapped`: it is forwarded to the
underlying writer, and a `WriteHeader` is recorded in `Status`. -/
def ResponseWriter.call (L : Lib) (rw : ResponseWriter) (op : WriterOp) : ResponseWriter :=
  { Wrapped := rw.Wrapped ++ [op],
    Status := match op with
      | WriterOp.writeHeader code => L.recordStatus rw.Status code
      | _ => rw.Status }

/-- The effects of serving one request through a wrapped handler: `invoked` lists the
requests with which the original handler was invoked, `writerOps` the calls that reached
the underlying `http.ResponseWriter`, `sent` the span snapshots handed to the emitter
(each in order), and `panicked` tells whether the call panicked instead of returning. -/
structure ServeResult where
  invoked : List Request
  writerOps : List WriterOp
  sent : List Span
  panicked : Bool
  deriving DecidableEq, Repr

/-! ## Server wrappers -/

/-- The handler identity fields of `WrapHandler` (nethttp.go, lines 32-49): for a
`*http.ServeMux` the pattern and type of the handler it selects for the request, and the
name of that handler when it is not empty; otherwise the cached name of the wrapped
handler when it is not empty. The result is `none` when the name lookup of line 36
panics, which happens before any of these fields is added. -/
def addHandlerFields (handler : Target) (handlerName : String) (r : Request) (span : Span) :
    Option Span :=
  match handler.mux with
  | some muxHandler =>
    let e := muxHandler r
    match e.name with
    | none => none
    | some name =>
      let span := span.AddField "handler.pattern" (Value.str e.pattern)
      let span := span.AddField "handler.type" (Value.str e.hType)
      if name ≠ "" then
        some ((span.AddField "handler.name" (Value.str name)).AddField "name" (Value.str name))
      else some span
  | none =>
    if handlerName ≠ "" then
      some ((span.AddField "handler.name" (Value.str handlerName)).AddField "name"
        (Value.str handlerName))
    else some span

/-- The call of the wrapped handler on `wrappedWriter.Wrapped` and what follows it
(nethttp.go, lines 51-55 and 78-82), with the deferred `span.Send()` (lines 26 and 67):
when the handler panics the status is not recorded and the deferred send still runs. -/
def serveAndRecord (L : Lib) (serve : Request → HandlerRun) (r : Request) (span : Span) :
    ServeResult :=
  let run := serve r
  let wrappedWriter := run.writes.foldl (ResponseWriter.call L) NewResponseWriter
  let span := run.adds.foldl (fun s kv => s.AddField kv.1 kv.2) span
  if run.panics then
    { invoked := [r], writerOps := wrappedWriter.Wrapped,
      sent := [span.Send L.elapsed], panicked := true }
  else
    let status := if wrappedWriter.Status = 0 then 200 else wrappedWriter.Status
    let span := span.AddField "response.status_code" (Value.int status)
    { invoked := [r], writerOps := wrappedWriter.Wrapped,
      sent := [span.Send L.elapsed], panicked := false }

/-- The closure `wrappedHandler` of `WrapHandler` (nethttp.go, lines 23-56), with the
handler name cached at line 21, applied to a request. When the name lookup of line 36
panics, the handler is not invoked and the deferred `span.Send()` of line 26 still runs. -/
def wrappedHandler (L : Lib) (handler : Target) (handlerName : String) (r : Request) :
    ServeResult :=
  let span := L.StartSpanOrTraceFromHTTP r
  let r1 := r.WithContext { span := some span }
  match addHandlerFields handler handlerName r1 span with
  | none =>
    { invoked := [], writerOps := [], sent := [span.Send L.elapsed], panicked := true }
  | some span => serveAndRecord L handler.serve (r.WithContext { span := some span }) span

/-- The function `WrapHandler` (nethttp.go, lines 19-58): the handler it returns, or
`none` when the name lookup of line 21 panics and no handler is returned. -/
def WrapHandler (L : Lib) (handler : Target) : Option (Request → ServeResult) :=
  match handler.name with
  | none => none
  | some handlerName => some (wrappedHandler L handler handlerName)

/-- The function returned by `WrapHandlerFunc(hf)`, applied to a request
(nethttp.go, lines 62-84). -/
def WrapHandlerFunc (L : Lib) (hf : HandlerFunc) (r : Request) : ServeResult :=
  let span := L.StartSpanOrTraceFromHTTP r
  let span :=
    if hf.name ≠ "" then
      (span.AddField "handler_func_name" (Value.str hf.name)).AddField "name"
        (Value.str hf.name)
    else span
  serveAndRecord L hf.call (r.WithContext { span := some span }) span

/-! ## Client wrapper -/

/-- An HTTP response as far as the wrapper reads it. -/
structure Response where
  StatusCode : Int
  body : String
  deriving DecidableEq, Repr

/-- A Go `error` value; `msg` is what `err.Error()` returns. -/
structure GoError where
  msg : String
  deriving DecidableEq, Repr

/-- The wrapped `http.RoundTripper`: the (response, error) pair its `RoundTrip` returns
for a request; `none` is Go's `nil`. -/
abbrev RoundTripper := Request → Option Response × Option GoError

/-- A telemetry record handed to the emitter: a standalone event or a span. -/
inductive Record
  | event (fields : Fields)
  | span (s : Span)
  deriving DecidableEq, Repr

/-- The fields of a telemetry record. -/
def Record.fields : Record → Fields
  | Record.event fs => fs
  | Record.span s => s.fields

/-- Whether a telemetry record is a standalone event. -/
def Record.isEvent : Record → Bool
  | Record.event _ => true
  | Record.span _ => false

/-- The effects of one outbound call through the wrapped round tripper: `ret` is the
returned (response, error) pair, `none` when the call panicked; `sent` lists the records
handed to the emitter, `passed` the requests handed to the wrapped transport, and
`created` the spans created (each in order). -/
structure TripResult where
  ret : Option (Option Response × Option GoError)
  sent : List Record
  passed : List Request
  created : List Span
  deriving DecidableEq, Repr

/-- Modelled from the spec: `serialize(ctx)` of the Trace Context Codec
(`span.SerializeHeaders`), "a versioned, delimited encoding of trace_id, span_id", in the
format of the scenario header `v1:abc123:def456`. -/
def Span.SerializeHeaders (s : Span) : String :=
  "v1:" ++ s.traceId ++ ":" ++ s.spanId

/-- Modelled from the spec: the Trace Context, as far as the codec of the scenario
carries it. -/
structure TraceContext where
  traceId : String
  spanId : String
  deriving DecidableEq, Repr

/-- The parts of a character list between its colons. -/
def splitColon : List Char → List (List Char)
  | [] => [[]]
  | c :: cs =>
    match splitColon cs with
    | [] => [[]]
    | p :: ps => if c = ':' then [] :: p :: ps else (c :: p) :: ps

/-- Modelled from the spec: `deserialize(header_value)` of the Trace Context Codec
(`propagation.UnmarshalTraceContext`): `v1:abc123:def456` "deserializes to
trace_id=abc123, span_id=def456"; "on any malformed/empty input returns NONE". -/
def UnmarshalTraceContext (header : String) : Option TraceContext :=
  match splitColon header.data with
  | [v, t, sp] =>
    if v = ['v', '1'] ∧ t ≠ [] ∧ sp ≠ [] then
      some { traceId := String.mk t, spanId := String.mk sp }
    else none
  | _ => none

/-- The method `hnyTripper.eventRoundTrip` (nethttp.go, lines 100-123). -/
def eventRoundTrip (L : Lib) (wrt : RoundTripper) (r : Request) : TripResult :=
  let ev := L.NewEvent
  let ev := (L.GetRequestProps r).foldl (fun e kv => addField e kv.1 kv.2) ev
  let ev := addField ev "meta.type" (Value.str "http_client")
  let (resp, err) := wrt r
  let ev :=
    match err with
    | some e => addField ev "error" (Value.str e.msg)
    | none => ev
  let ev := addField ev "duration_ms" (Value.ms L.elapsed)
  { ret := some (resp, err), sent := [Record.event ev], passed := [r], created := [] }

/-- The child span `spanRoundTrip` creates and populates before the call (nethttp.go,
lines 128-137): a child of the active span, with the request fields of the request as it
stands after `r.WithContext(ctx)`, `meta.type` and `name`. -/
def clientSpan (L : Lib) (span : Span) (r : Request) : Span :=
  let child := span.CreateChild (L.newSpanId span)
  let r1 := r.WithContext { span := some child }
  let span1 := (L.GetRequestProps r1).foldl (fun s kv => s.AddField kv.1 kv.2) child
  let span1 := span1.AddField "meta.type" (Value.str "http_client")
  span1.AddField "name" (Value.str "http_client")

/-- The request `spanRoundTrip` hands to the wrapped transport (nethttp.go, lines 131 and
138): its context carries the child span, and the serialization of the child span is
added to its headers with `Header.Add`. -/
def outboundRequest (L : Lib) (span : Span) (r : Request) : Request :=
  let span1 := clientSpan L span r
  { r with
    header := headerAdd r.header L.TracePropagationHTTPHeader span1.SerializeHeaders,
    ctx := { span := some span1 } }

/-- The method `hnyTripper.spanRoundTrip` (nethttp.go, lines 125-150). With a nil error
and a nil response, `resp.StatusCode` dereferences nil: the call panics and the deferred
`span.Send()` still runs. -/
def spanRoundTrip (L : Lib) (wrt : RoundTripper) (span : Span) (r : Request) : TripResult :=
  let child := span.CreateChild (L.newSpanId span)
  let span1 := clientSpan L span r
  let r2 := outboundRequest L span r
  let (resp, err) := wrt r2
  match err, resp with
  | some e, _ =>
    let span1 := span1.AddField "error" (Value.str e.msg)
    { ret := some (resp, err), sent := [Record.span (span1.Send L.elapsed)],
      passed := [r2], created := [child] }
  | none, some rsp =>
    let span1 := span1.AddField "response.status_code" (Value.int rsp.StatusCode)
    { ret := some (resp, err), sent := [Record.span (span1.Send L.elapsed)],
      passed := [r2], created := [child] }
  | none, none =>
    { ret := none, sent := [Record.span (span1.Send L.elapsed)],
      passed := [r2], created := [child] }

/-- The method `hnyTripper.RoundTrip` of the tripper `WrapRoundTripper(wrt)` returns
(nethttp.go, lines 91-98 and 156-160). -/
def RoundTrip (L : Lib) (wrt : RoundTripper) (r : Request) : TripResult :=
  match r.ctx.span with
  | none => eventRoundTrip L wrt r
  | some span => spanRoundTrip L wrt span r

/-! ## The wall: twitterize -/

/-- The character class of `hashtagRegexp`, `[a-z0-9]`. -/
def isHashtagChar (c : Char) : Bool :=
  (decide ('a' ≤ c) && decide (c ≤ 'z')) || (decide ('0' ≤ c) && decide (c ≤ '9'))

/-- The character class of `usernameRegexp`, `[a-z0-9_]`. -/
def isUsernameChar (c : Char) : Bool :=
  isHashtagChar c || c == '_'

/-- The template `linkToHashtag` expanded for a match whose group 1 is `tag`. -/
def linkToHashtag (tag : List Char) : List Char :=
  "<a href=\"https://twitter.com/hashtag/".data ++ tag ++ "\">#".data ++ tag ++ "</a>".data

/-- What a pending hashtag match contributes to the output when it ends: nothing when no
match is pending, the bare `#` when no class character followed it, the link otherwise. -/
def flushHashtag : Option (List Char) → List Char
  | none => []
  | some [] => ['#']
  | some tag => linkToHashtag tag

/-- The scan behind `hashtagRegexp.ReplaceAllString(content, linkToHashtag)`: `cur` holds
the class characters read since a pending `#`; matches are leftmost, greedy and do not
overlap. -/
def hashtagScan : Option (List Char) → List Char → List Char
  | cur, [] => flushHashtag cur
  | none, c :: cs => if c = '#' then hashtagScan (some []) cs else c :: hashtagScan none cs
  | some tag, c :: cs =>
    if isHashtagChar c then hashtagScan (some (tag ++ [c])) cs
    else if c = '#' then flushHashtag (some tag) ++ hashtagScan (some []) cs
    else flushHashtag (some tag) ++ c :: hashtagScan none cs

/-- What a pending username match contributes to the list of matches when it ends. -/
def flushUsername : Option (List Char) → List (List Char)
  | none => []
  | some [] => []
  | some name => ['@' :: name]

/-- The scan behind `usernameRegexp.FindAllString(newContent, -1)`: the matches of
`@([a-z0-9_]+)`, leftmost, greedy and not overlapping, in order. -/
def usernameScan : Option (List Char) → List Char → List (List Char)
  | cur, [] => flushUsername cur
  | none, c :: cs => if c = '@' then usernameScan (some []) cs else usernameScan none cs
  | some name, c :: cs =>
    if isUsernameChar c then usernameScan (some (name ++ [c])) cs
    else if c = '@' then flushUsername (some name) ++ usernameScan (some []) cs
    else flushUsername (some name) ++ usernameScan none cs

/-- Whether `s` begins with `p`. -/
def startsWith : List Char → List Char → Bool
  | [], _ => true
  | _ :: _, [] => false
  | a :: p, b :: s => a == b && startsWith p s

/-- Go's `strings.Replace(s, old, new, 1)` for a non-empty `old`: the first occurrence of
`old` in `s` is replaced by `new`. -/
def replaceOnce (old new : List Char) : List Char → List Char
  | [] => []
  | c :: cs =>
    if startsWith old (c :: cs) then new ++ (c :: cs).drop old.length
    else c :: replaceOnce old new cs

/-- The result of `fmt.Sprintf(linkToProfile, profile, handle)`. -/
def linkToProfile (profile handle : List Char) : List Char :=
  "<a href=\"".data ++ profile ++ "\">".data ++ handle ++ "</a>".data

/-- The loop of `twitterize` over the matches (wall.go, lines 95-109). `get` is
`http.Get`: the response for a URL, `none` when the request fails (the response is nil
and the error is discarded). Reading `resp.StatusCode` of a nil response panics: the
result is then `none`. -/
def twitterizeLoop (get : String → Option Response) :
    List (List Char) → List Char → Option (List Char)
  | [], newContent => some newContent
  | handle :: rest, newContent =>
    let profile := "https://twitter.com/".data ++ handle.drop 1
    match get (String.mk profile) with
    | none => none
    | some resp =>
      if resp.StatusCode = 200 then
        twitterizeLoop get rest (replaceOnce handle (linkToProfile profile handle) newContent)
      else twitterizeLoop get rest newContent

/-- The function `twitterize` (wall.go, lines 91-112); `none` when it panics. -/
def twitterize (get : String → Option Response) (content : String) : Option String :=
  let newContent := hashtagScan none content.data
  let handles := usernameScan none newContent
  (twitterizeLoop get handles newContent).map String.mk

/-! ## Notions used to state the properties -/

/-- The status `common.NewResponseWriter` has captured once the given calls were made on
its `Wrapped` writer; 0 when it captured none. -/
def capturedStatus (L : Lib) (ops : List WriterOp) : Int :=
  (ops.foldl (ResponseWriter.call L) NewResponseWriter).Status

/-- The served request had its status recorded: the original handler `serve` was invoked
on one request `q`, one span was sent, and the `response.status_code` field of that span
is 200 when the captured status is 0 and the captured status otherwise; in particular it
is 200 when the handler made no `WriteHeader` call. -/
def RecordsStatus (L : Lib) (serve : Request → HandlerRun) (res : ServeResult) : Prop :=
  ∃ q s, res.invoked = [q] ∧ res.sent = [s] ∧
    getField s.fields "response.status_code" =
      some (Value.int
        (if capturedStatus L (serve q).writes = 0 then 200
          else capturedStatus L (serve q).writes)) ∧
    ((∀ c, WriterOp.writeHeader c ∉ (serve q).writes) →
      getField s.fields "response.status_code" = some (Value.int 200))

/-- The name resolved for the handler of a request: the name of the handler the ServeMux
selects for the request when the target is a ServeMux, the cached name of the wrapped
handler itself otherwise; `none` when the lookup panics. -/
def resolvedName (handler : Target) (handlerName : String) (r : Request) : Option String :=
  match handler.mux with
  | some muxHandler => (muxHandler r).name
  | none => some handlerName

/-- The fields expected for a ServeMux target: the pattern and the type of the selected
handler; none for another target. -/
def expectedMuxFields (handler : Target) (r : Request) : Fields :=
  match handler.mux with
  | some muxHandler =>
    [("handler.pattern", Value.str (muxHandler r).pattern),
      ("handler.type", Value.str (muxHandler r).hType)]
  | none => []

/-- The fields expected for a resolved name: none for the empty name, `handler.name` and
`name` with that same name otherwise. -/
def expectedNameFields (name : String) : Fields :=
  if name = "" then [] else [("handler.name", Value.str name), ("name", Value.str name)]

/-- The wrapper is transparent on a request `r` for which it opened the span `opened`:
the original handler `serve` was invoked exactly once, on `r` with only its context
replaced by one that carries the opened span (same trace, span and parent identifiers),
the calls that reached the underlying response writer are exactly the calls that
invocation made, and the one span sent is that same span. -/
def Transparent (serve : Request → HandlerRun) (r : Request) (opened : Span)
    (res : ServeResult) : Prop :=
  ∃ sp s, sp.traceId = opened.traceId ∧ sp.spanId = opened.spanId ∧
    sp.parentId = opened.parentId ∧
    res.invoked = [r.WithContext { span := some sp }] ∧
    res.writerOps = (serve (r.WithContext { span := some sp })).writes ∧
    res.sent = [s] ∧ s.spanId = opened.spanId

/-! ## Sample inputs -/

/-- Modelled from the spec: a sample instance of the library parts. The server span is a
child of the trace context read from the propagation header when that is well-formed and
a root span otherwise, and carries the request method and path; the request properties
are method, host and path; the first `WriteHeader` code is the captured status. -/
def sampleLib : Lib :=
  { StartSpanOrTraceFromHTTP := fun r =>
      let fields : Fields :=
        [("request.method", Value.str r.method), ("request.path", Value.str r.path)]
      match UnmarshalTraceContext (headerGet r.header "X-Honeycomb-Trace") with
      | some tc =>
        { traceId := tc.traceId, spanId := "s1", parentId := some tc.spanId, fields := fields }
      | none => { traceId := "t1", spanId := "s1", parentId := none, fields := fields },
    GetRequestProps := fun r =>
      [("request.method", Value.str r.method), ("request.host", Value.str r.host),
        ("request.path", Value.str r.path)],
    recordStatus := fun status code => if status = 0 then code else status,
    NewEvent := [],
    newSpanId := fun parent => parent.spanId ++ "c",
    TracePropagationHTTPHeader := "X-Honeycomb-Trace",
    elapsed := 7 }

/-- A request with no span in its context and no propagation header. -/
def plainRequest : Request :=
  { method := "GET", host := "wall", path := "/", header := [], body := "",
    ctx := { span := none } }

/-- A span active in a request context. -/
def activeSpan : Span :=
  { traceId := "t0", spanId := "p1", parentId := none, fields := [] }

/-- A request whose context holds `activeSpan`. -/
def tracedRequest : Request :=
  { plainRequest with ctx := { span := some activeSpan } }

/-- A request whose context holds `activeSpan` and which already carries a propagation
header, as a request that was sent through the wrapper once before does. -/
def resentRequest : Request :=
  { tracedRequest with header := [("X-Honeycomb-Trace", "v1:t0:old")] }

/-- A handler that writes a body without setting a status code and returns. -/
def listTarget : Target :=
  { serve := fun _ =>
      { writes := [WriterOp.setHeader "Content-Type" "text/html", WriterOp.write "First post!"],
        adds := [], panics := false },
    name := some "main.list", mux := none }

/-- A handler that sets status 302 and returns. -/
def redirectFunc : HandlerFunc :=
  { call := fun _ =>
      { writes := [WriterOp.setHeader "Location" "/", WriterOp.writeHeader 302],
        adds := [("sentiment", Value.int 0)], panics := false },
    name := "main.write" }

/-- A handler that panics before writing anything. -/
def panickingTarget : Target :=
  { serve := fun _ => { writes := [], adds := [], panics := true },
    name := some "main.write", mux := none }

/-- A request for the path `/v`, with no span in its context. -/
def valueRequest : Request :=
  { plainRequest with path := "/v" }

/-- A ServeMux on which the path `/v` is registered with a handler of struct kind, as by
`mux.Handle("/v", valueHandler{})` for a struct type `valueHandler` whose `ServeHTTP` has
a value receiver and writes a body: the mux is a pointer, so the lookup of line 21
succeeds, and the reflective name lookup on the selected handler panics. -/
def valueMux : Target :=
  { serve := fun _ => { writes := [WriterOp.write "ok"], adds := [], panics := false },
    name := some "",
    mux := some (fun _ => { pattern := "/v", name := none, hType := "main.valueHandler" }) }

/-- The handler of struct kind itself. -/
def valueTarget : Target :=
  { serve := fun _ => { writes := [WriterOp.write "ok"], adds := [], panics := false },
    name := none, mux := none }

/-- A transport that answers every request with status 200. -/
def okTripper : RoundTripper :=
  fun _ => (some { StatusCode := 200, body := "0.5" }, none)

/-- A transport that fails every request with an error whose message is empty, as
`errors.New("")` is. -/
def silentErrTripper : RoundTripper :=
  fun _ => (none, some { msg := "" })

/-- A transport that fails every request with a timeout error. -/
def timeoutTripper : RoundTripper :=
  fun _ => (none, some { msg := "net/http: request canceled (Client.Timeout exceeded)" })

/-- A transport that returns a nil response together with a nil error. -/
def nilTripper : RoundTripper :=
  fun _ => (none, none)

/-- A profile lookup that finds every profile. -/
def foundGet : String → Option Response :=
  fun _ => some { StatusCode := 200, body := "" }

/-- A profile lookup on which every request fails: no response is returned. -/
def failedGet : String → Option Response :=
  fun _ => none

/-! ## Auxiliary facts -/

theorem getField_append_same (fs : Fields) (k : String) (v : Value) :
    getField (fs ++ [(k, v)]) k = some v := by
  induction fs with
  | nil => simp [getField]
  | cons p rest ih =>
    obtain ⟨k0, v0⟩ := p
    simp [getField, ih]

theorem getField_append_other (fs : Fields) (k k0 : String) (v : Value) (h : k0 ≠ k) :
    getField (fs ++ [(k0, v)]) k = getField fs k := by
  induction fs with
  | nil => simp [getField, h]
  | cons p rest ih =>
    obtain ⟨k1, v1⟩ := p
    simp [getField, ih]

theorem foldl_addField (kvs : Fields) (fs : Fields) :
    kvs.foldl (fun e kv => addField e kv.1 kv.2) fs = fs ++ kvs := by
  induction kvs generalizing fs with
  | nil => simp
  | cons p rest ih =>
    rw [List.foldl_cons, ih]
    simp [addField]

theorem foldl_AddField (kvs : Fields) (s : Span) :
    kvs.foldl (fun s kv => s.AddField kv.1 kv.2) s = { s with fields := s.fields ++ kvs } := by
  induction kvs generalizing s with
  | nil => simp
  | cons p rest ih =>
    rw [List.foldl_cons, ih]
    simp [Span.AddField, addField]

theorem foldl_call_Wrapped (L : Lib) (ops : List WriterOp) (rw : ResponseWriter) :
    (ops.foldl (ResponseWriter.call L) rw).Wrapped = rw.Wrapped ++ ops := by
  induction ops generalizing rw with
  | nil => simp
  | cons op rest ih => simp [List.foldl, ih, ResponseWriter.call]

theorem foldl_call_Status (L : Lib) (ops : List WriterOp) (rw : ResponseWriter)
    (h : ∀ c, WriterOp.writeHeader c ∉ ops) :
    (ops.foldl (ResponseWriter.call L) rw).Status = rw.Status := by
  induction ops generalizing rw with
  | nil => simp
  | cons op rest ih =>
    have hrest : ∀ c, WriterOp.writeHeader c ∉ rest := fun c hc =>
      h c (List.mem_cons_of_mem _ hc)
    rw [List.foldl, ih _ hrest]
    cases op with
    | writeHeader code => exact absurd (List.mem_cons_self _ _) (h code)
    | setHeader k v => rfl
    | write d => rfl

theorem serveAndRecord_invoked (L : Lib) (serve : Request → HandlerRun) (r : Request)
    (span : Span) : (serveAndRecord L serve r span).invoked = [r] := by
  unfold serveAndRecord
  dsimp only
  split <;> rfl

theorem serveAndRecord_writerOps (L : Lib) (serve : Request → HandlerRun) (r : Request)
    (span : Span) : (serveAndRecord L serve r span).writerOps = (serve r).writes := by
  unfold serveAndRecord
  dsimp only
  split <;> simp [foldl_call_Wrapped, NewResponseWriter]

theorem serveAndRecord_panicked (L : Lib) (serve : Request → HandlerRun) (r : Request)
    (span : Span) : (serveAndRecord L serve r span).panicked = (serve r).panics := by
  unfold serveAndRecord
  dsimp only
  split <;> simp_all

theorem serveAndRecord_sent (L : Lib) (serve : Request → HandlerRun) (r : Request)
    (span : Span) :
    (serveAndRecord L serve r span).sent =
      [{ span with
          fields := span.fields ++ (serve r).adds ++
            (if (serve r).panics then []
              else [("response.status_code",
                Value.int (if capturedStatus L (serve r).writes = 0 then 200
                  else capturedStatus L (serve r).writes))]) ++
            [("duration_ms", Value.ms L.elapsed)] }] := by
  unfold serveAndRecord
  dsimp only
  rw [foldl_AddField]
  split <;> rename_i h <;>
    simp [h, Span.Send, Span.AddField, addField, capturedStatus]

theorem addHandlerFields_resolved (handler : Target) (handlerName : String) (r : Request)
    (span : Span) (name : String) (h : resolvedName handler handlerName r = some name) :
    addHandlerFields handler handlerName r span =
      some { span with
        fields := span.fields ++ expectedMuxFields handler r ++ expectedNameFields name } := by
  unfold addHandlerFields expectedMuxFields expectedNameFields
  unfold resolvedName at h
  split
  · rename_i muxHandler hm
    rw [hm] at h
    dsimp only at h ⊢
    rw [h]
    dsimp only
    split <;> rename_i hn <;> simp_all [Span.AddField, addField]
  · rename_i hm
    rw [hm] at h
    cases h
    split <;> rename_i hn <;> simp_all [Span.AddField, addField]

theorem addHandlerFields_unresolved (handler : Target) (handlerName : String) (r : Request)
    (span : Span) (h : resolvedName handler handlerName r = none) :
    addHandlerFields handler handlerName r span = none := by
  unfold addHandlerFields
  unfold resolvedName at h
  split
  · rename_i muxHandler hm
    rw [hm] at h
    dsimp only at h ⊢
    rw [h]
  · rename_i hm
    rw [hm] at h
    cases h

theorem addHandlerFields_spanId (handler : Target) (handlerName : String) (r : Request)
    (span sp : Span) (h : addHandlerFields handler handlerName r span = some sp) :
    sp.traceId = span.traceId ∧ sp.spanId = span.spanId ∧ sp.parentId = span.parentId := by
  cases hn : resolvedName handler handlerName r with
  | none =>
    rw [addHandlerFields_unresolved handler handlerName r span hn] at h
    cases h
  | some name =>
    rw [addHandlerFields_resolved handler handlerName r span name hn] at h
    cases h
    exact ⟨rfl, rfl, rfl⟩

theorem wrappedHandler_cases (L : Lib) (handler : Target) (handlerName : String)
    (r : Request) :
    (addHandlerFields handler handlerName
          (r.WithContext { span := some (L.StartSpanOrTraceFromHTTP r) })
          (L.StartSpanOrTraceFromHTTP r) = none ∧
        wrappedHandler L handler handlerName r =
          { invoked := [], writerOps := [],
            sent := [(L.StartSpanOrTraceFromHTTP r).Send L.elapsed], panicked := true }) ∨
      ∃ sp, addHandlerFields handler handlerName
          (r.WithContext { span := some (L.StartSpanOrTraceFromHTTP r) })
          (L.StartSpanOrTraceFromHTTP r) = some sp ∧
        wrappedHandler L handler handlerName r =
          serveAndRecord L handler.serve (r.WithContext { span := some sp }) sp := by
  unfold wrappedHandler
  dsimp only
  cases h : addHandlerFields handler handlerName
      (r.WithContext { span := some (L.StartSpanOrTraceFromHTTP r) })
      (L.StartSpanOrTraceFromHTTP r) with
  | none => exact Or.inl ⟨rfl, rfl⟩
  | some sp => exact Or.inr ⟨sp, rfl, rfl⟩

theorem WrapHandler_some (L : Lib) (handler : Target) (wrapped : Request → ServeResult)
    (h : WrapHandler L handler = some wrapped) :
    ∃ handlerName, handler.name = some handlerName ∧
      wrapped = wrappedHandler L handler handlerName := by
  unfold WrapHandler at h
  cases hn : handler.name with
  | none =>
    rw [hn] at h
    cases h
  | some handlerName =>
    rw [hn] at h
    cases h
    exact ⟨handlerName, rfl, rfl⟩

theorem serveAndRecord_records (L : Lib) (serve : Request → HandlerRun) (r : Request)
    (span : Span) (h : (serveAndRecord L serve r span).panicked = false) :
    RecordsStatus L serve (serveAndRecord L serve r span) := by
  rw [serveAndRecord_panicked] at h
  have key : getField
      (span.fields ++ (serve r).adds ++
        [("response.status_code",
          Value.int (if capturedStatus L (serve r).writes = 0 then 200
            else capturedStatus L (serve r).writes))] ++
        [("duration_ms", Value.ms L.elapsed)]) "response.status_code" =
      some (Value.int (if capturedStatus L (serve r).writes = 0 then 200
        else capturedStatus L (serve r).writes)) := by
    rw [getField_append_other _ _ _ _ (by decide), getField_append_same]
  refine ⟨r, _, serveAndRecord_invoked L serve r span, serveAndRecord_sent L serve r span,
    ?_, ?_⟩
  · simpa [h] using key
  · intro hno
    have h0 : capturedStatus L (serve r).writes = 0 := by
      unfold capturedStatus
      rw [foldl_call_Status L _ _ hno]
      rfl
    simpa [h, h0] using key

theorem serveAndRecord_once (L : Lib) (serve : Request → HandlerRun) (r : Request)
    (span : Span) :
    ∃ s, (serveAndRecord L serve r span).sent = [s] ∧ s.spanId = span.spanId ∧
      ((serveAndRecord L serve r span).panicked = true ∨
        (getField s.fields "response.status_code").isSome = true) := by
  refine ⟨_, serveAndRecord_sent L serve r span, rfl, ?_⟩
  cases hp : (serveAndRecord L serve r span).panicked with
  | true => exact Or.inl rfl
  | false =>
    obtain ⟨q, s, _, hs, hf, _⟩ := serveAndRecord_records L serve r span hp
    rw [serveAndRecord_sent] at hs
    right
    cases hs
    rw [hf]
    rfl

theorem wrappedHandler_records (L : Lib) (handler : Target) (handlerName : String)
    (r : Request) (h : (wrappedHandler L handler handlerName r).panicked = false) :
    RecordsStatus L handler.serve (wrappedHandler L handler handlerName r) := by
  rcases wrappedHandler_cases L handler handlerName r with ⟨_, he⟩ | ⟨sp, _, he⟩
  · rw [he] at h
    cases h
  · rw [he] at h ⊢
    exact serveAndRecord_records L handler.serve _ _ h

theorem wrappedHandler_once (L : Lib) (handler : Target) (handlerName : String)
    (r : Request) :
    ∃ s, (wrappedHandler L handler handlerName r).sent = [s] ∧
      s.spanId = (L.StartSpanOrTraceFromHTTP r).spanId ∧
      ((wrappedHandler L handler handlerName r).panicked = true ∨
        (getField s.fields "response.status_code").isSome = true) := by
  rcases wrappedHandler_cases L handler handlerName r with ⟨_, he⟩ | ⟨sp, hsp, he⟩
  · rw [he]
    exact ⟨_, rfl, rfl, Or.inl rfl⟩
  · rw [he]
    obtain ⟨s, hs, hid, hst⟩ := serveAndRecord_once L handler.serve
      (r.WithContext { span := some sp }) sp
    exact ⟨s, hs, by rw [hid, (addHandlerFields_spanId _ _ _ _ _ hsp).2.1], hst⟩

theorem WrapHandlerFunc_once (L : Lib) (hf : HandlerFunc) (r : Request) :
    ∃ s, (WrapHandlerFunc L hf r).sent = [s] ∧
      s.spanId = (L.StartSpanOrTraceFromHTTP r).spanId ∧
      ((WrapHandlerFunc L hf r).panicked = true ∨
        (getField s.fields "response.status_code").isSome = true) := by
  unfold WrapHandlerFunc
  dsimp only
  obtain ⟨s, hs, hid, hst⟩ := serveAndRecord_once L hf.call
    (r.WithContext
      { span := some (if hf.name ≠ "" then
          ((L.StartSpanOrTraceFromHTTP r).AddField "handler_func_name"
            (Value.str hf.name)).AddField "name" (Value.str hf.name)
          else L.StartSpanOrTraceFromHTTP r) })
    (if hf.name ≠ "" then
      ((L.StartSpanOrTraceFromHTTP r).AddField "handler_func_name"
        (Value.str hf.name)).AddField "name" (Value.str hf.name)
      else L.StartSpanOrTraceFromHTTP r)
  refine ⟨s, hs, ?_, hst⟩
  rw [hid]
  split <;> rfl

/-- When the name lookup resolves, the original handler is invoked, and the span it finds
in its context carries, after the fields the span was opened with, "handler.pattern" and
"handler.type" when the target is a ServeMux, followed by "handler.name" and "name" with
the resolved name when that name is not empty and by neither of them when it is empty;
whatever the wrapper adds afterwards is the status code or the duration. -/
theorem wrappedHandler_resolved (L : Lib) (handler : Target) (handlerName : String)
    (r : Request) (name : String)
    (h : resolvedName handler handlerName
      (r.WithContext { span := some (L.StartSpanOrTraceFromHTTP r) }) = some name) :
    ∃ sp s tail,
      (wrappedHandler L handler handlerName r).invoked =
        [r.WithContext { span := some sp }] ∧
      sp.fields = (L.StartSpanOrTraceFromHTTP r).fields ++
        expectedMuxFields handler
          (r.WithContext { span := some (L.StartSpanOrTraceFromHTTP r) }) ++
        expectedNameFields name ∧
      (wrappedHandler L handler handlerName r).sent = [s] ∧
      s.fields = sp.fields ++ (handler.serve (r.WithContext { span := some sp })).adds ++ tail ∧
      ∀ kv ∈ tail, kv.1 = "response.status_code" ∨ kv.1 = "duration_ms" := by
  have hadd := addHandlerFields_resolved handler handlerName
    (r.WithContext { span := some (L.StartSpanOrTraceFromHTTP r) })
    (L.StartSpanOrTraceFromHTTP r) name h
  rcases wrappedHandler_cases L handler handlerName r with ⟨hn, _⟩ | ⟨sp, hsp, he⟩
  · rw [hadd] at hn
    cases hn
  · rw [he]
    refine ⟨sp, _,
      (if (handler.serve (r.WithContext { span := some sp })).panics then []
        else [("response.status_code",
          Value.int (if capturedStatus L
              (handler.serve (r.WithContext { span := some sp })).writes = 0 then 200
            else capturedStatus L
              (handler.serve (r.WithContext { span := some sp })).writes))]) ++
        [("duration_ms", Value.ms L.elapsed)],
      serveAndRecord_invoked L handler.serve _ _, ?_,
      serveAndRecord_sent L handler.serve _ _, ?_, ?_⟩
    · rw [hadd] at hsp
      cases hsp
      rfl
    · simp only [List.append_assoc]
    · intro kv hkv
      split at hkv
      · simp only [List.nil_append, List.mem_singleton] at hkv
        exact Or.inr (by rw [hkv])
      · simp only [List.singleton_append, List.mem_cons, List.mem_singleton,
          List.not_mem_nil, or_false] at hkv
        rcases hkv with h1 | h1
        · exact Or.inl (by rw [h1])
        · exact Or.inr (by rw [h1])

/-- When the name lookup resolves, the handler returned by WrapHandler is transparent. -/
theorem wrappedHandler_transparent (L : Lib) (handler : Target) (handlerName : String)
    (r : Request) (name : String)
    (h : resolvedName handler handlerName
      (r.WithContext { span := some (L.StartSpanOrTraceFromHTTP r) }) = some name) :
    Transparent handler.serve r (L.StartSpanOrTraceFromHTTP r)
      (wrappedHandler L handler handlerName r) := by
  have hadd := addHandlerFields_resolved handler handlerName
    (r.WithContext { span := some (L.StartSpanOrTraceFromHTTP r) })
    (L.StartSpanOrTraceFromHTTP r) name h
  rcases wrappedHandler_cases L handler handlerName r with ⟨hn, _⟩ | ⟨sp, hsp, he⟩
  · rw [hadd] at hn
    cases hn
  · rw [he]
    obtain ⟨h1, h2, h3⟩ := addHandlerFields_spanId _ _ _ _ _ hsp
    exact ⟨sp, _, h1, h2, h3, serveAndRecord_invoked L handler.serve _ _,
      serveAndRecord_writerOps L handler.serve _ _, serveAndRecord_sent L handler.serve _ _, h2⟩

/-- The function returned by WrapHandlerFunc is transparent. -/
theorem WrapHandlerFunc_transparent (L : Lib) (hf : HandlerFunc) (r : Request) :
    Transparent hf.call r (L.StartSpanOrTraceFromHTTP r) (WrapHandlerFunc L hf r) := by
  unfold WrapHandlerFunc
  dsimp only
  refine ⟨_, _, ?_, ?_, ?_, serveAndRecord_invoked L hf.call _ _,
    serveAndRecord_writerOps L hf.call _ _, serveAndRecord_sent L hf.call _ _, ?_⟩ <;>
    split <;> rfl

/-! ## The claims on the server wrappers -/

/-- C1: for a handler wrapped by WrapHandler or WrapHandlerFunc and a request on which
the handler returns normally, the span that is sent records in "response.status_code"
the value 200 when the captured status is 0 (in particular when the handler made no
WriteHeader call) and the captured status otherwise. -/
theorem status_code_recorded (L : Lib) (handler : Target) (hf : HandlerFunc) (r : Request) :
    (∀ wrapped, WrapHandler L handler = some wrapped → (wrapped r).panicked = false →
        RecordsStatus L handler.serve (wrapped r)) ∧
      ((WrapHandlerFunc L hf r).panicked = false →
        RecordsStatus L hf.call (WrapHandlerFunc L hf r)) := by
  constructor
  · intro wrapped hw h
    obtain ⟨handlerName, _, rfl⟩ := WrapHandler_some L handler wrapped hw
    exact wrappedHandler_records L handler handlerName r h
  · exact fun h => serveAndRecord_records L hf.call _ _ h

/-- Witness of C1: a handler that writes a body without a status code, and a handler
function that sets status 302. -/
theorem status_code_recorded_witness :
    (WrapHandler sampleLib listTarget = some (wrappedHandler sampleLib listTarget "main.list") ∧
        (wrappedHandler sampleLib listTarget "main.list" plainRequest).panicked = false ∧
        RecordsStatus sampleLib listTarget.serve
          (wrappedHandler sampleLib listTarget "main.list" plainRequest)) ∧
      ((WrapHandlerFunc sampleLib redirectFunc plainRequest).panicked = false ∧
        RecordsStatus sampleLib redirectFunc.call
          (WrapHandlerFunc sampleLib redirectFunc plainRequest)) :=
  ⟨⟨rfl, by decide,
      (status_code_recorded sampleLib listTarget redirectFunc plainRequest).1 _ rfl
        (by decide)⟩,
    ⟨by decide,
      (status_code_recorded sampleLib listTarget redirectFunc plainRequest).2 (by decide)⟩⟩

/-- C7, as stated, fails: when the wrapped handler panics, the span is sent once by the
deferred send, but it carries no "response.status_code" field. -/
theorem panicking_handler_span_lacks_status :
    (WrapHandler sampleLib panickingTarget).map
        (fun wrapped => ((wrapped plainRequest).panicked,
          (wrapped plainRequest).sent.map
            (fun s => getField s.fields "response.status_code"))) =
      some (true, [none]) := by
  decide

/-- C7, amended: for every invocation of a handler wrapped by WrapHandler or
WrapHandlerFunc, whether the wrapped handler returns normally or panics, the span opened
for the request is sent exactly once; when the handler returns normally the span carries
a "response.status_code" field at that moment. -/
theorem span_sent_exactly_once (L : Lib) (handler : Target) (hf : HandlerFunc)
    (r : Request) :
    (∀ wrapped, WrapHandler L handler = some wrapped →
        ∃ s, (wrapped r).sent = [s] ∧
          s.spanId = (L.StartSpanOrTraceFromHTTP r).spanId ∧
          ((wrapped r).panicked = true ∨
            (getField s.fields "response.status_code").isSome = true)) ∧
      (∃ s, (WrapHandlerFunc L hf r).sent = [s] ∧
        s.spanId = (L.StartSpanOrTraceFromHTTP r).spanId ∧
        ((WrapHandlerFunc L hf r).panicked = true ∨
          (getField s.fields "response.status_code").isSome = true)) := by
  constructor
  · intro wrapped hw
    obtain ⟨handlerName, _, rfl⟩ := WrapHandler_some L handler wrapped hw
    exact wrappedHandler_once L handler handlerName r
  · exact WrapHandlerFunc_once L hf r

/-- Witness of the amended C7: a handler that returns normally, wrapped by WrapHandler. -/
theorem span_sent_exactly_once_witness :
    WrapHandler sampleLib listTarget = some (wrappedHandler sampleLib listTarget "main.list") ∧
      ∃ s, (wrappedHandler sampleLib listTarget "main.list" plainRequest).sent = [s] ∧
        s.spanId = (sampleLib.StartSpanOrTraceFromHTTP plainRequest).spanId ∧
        ((wrappedHandler sampleLib listTarget "main.list" plainRequest).panicked = true ∨
          (getField s.fields "response.status_code").isSome = true) :=
  ⟨rfl, (span_sent_exactly_once sampleLib listTarget redirectFunc plainRequest).1 _ rfl⟩

/-- C8 at a ServeMux whose route for the request is a handler of struct kind: the name
lookup of line 36 panics, so the wrapper panics without serving the request, and the span
the deferred send hands over carries none of "handler.pattern", "handler.type",
"handler.name" and "name". -/
theorem struct_handler_fields_missing :
    (WrapHandler sampleLib valueMux).map
        (fun wrapped => ((wrapped valueRequest).panicked,
          (wrapped valueRequest).invoked.length)) = some (true, 0) ∧
      (WrapHandler sampleLib valueMux).map
        (fun wrapped => (wrapped valueRequest).sent.map
          (fun s => [getField s.fields "handler.pattern", getField s.fields "handler.type",
            getField s.fields "handler.name", getField s.fields "name"])) =
        some [[none, none, none, none]] := by
  decide

/-- C9 at the same ServeMux: served directly, the handler writes a body and returns;
served through the handler WrapHandler returns, it is not invoked and nothing reaches the
response writer. For the handler of struct kind itself, the name lookup of line 21 panics
and WrapHandler returns no handler. -/
theorem struct_handler_not_invoked :
    (valueMux.serve valueRequest).writes = [WriterOp.write "ok"] ∧
      (valueMux.serve valueRequest).panics = false ∧
      (WrapHandler sampleLib valueMux).map
          (fun wrapped => ((wrapped valueRequest).invoked.length,
            (wrapped valueRequest).writerOps, (wrapped valueRequest).panicked)) =
        some (0, [], true) ∧
      (WrapHandler sampleLib valueTarget).isSome = false := by
  decide

/-! ## Auxiliary facts on the client wrapper -/

theorem eventRoundTrip_ret (L : Lib) (wrt : RoundTripper) (r : Request) :
    (eventRoundTrip L wrt r).ret = some (wrt r) := by
  unfold eventRoundTrip
  rfl

theorem eventRoundTrip_passed (L : Lib) (wrt : RoundTripper) (r : Request) :
    (eventRoundTrip L wrt r).passed = [r] := by
  unfold eventRoundTrip
  rfl

theorem eventRoundTrip_created (L : Lib) (wrt : RoundTripper) (r : Request) :
    (eventRoundTrip L wrt r).created = [] := by
  unfold eventRoundTrip
  rfl

theorem eventRoundTrip_sent (L : Lib) (wrt : RoundTripper) (r : Request) :
    (eventRoundTrip L wrt r).sent =
      [Record.event (L.NewEvent ++ L.GetRequestProps r ++
        [("meta.type", Value.str "http_client")] ++
        (match (wrt r).2 with
          | some e => [("error", Value.str e.msg)]
          | none => []) ++
        [("duration_ms", Value.ms L.elapsed)])] := by
  unfold eventRoundTrip
  dsimp only
  rw [foldl_addField]
  rcases wrt r with ⟨resp, _ | e⟩ <;> simp [addField]

theorem clientSpan_eq (L : Lib) (span : Span) (r : Request) :
    clientSpan L span r =
      { traceId := span.traceId, spanId := L.newSpanId span, parentId := some span.spanId,
        fields :=
          L.GetRequestProps
              (r.WithContext { span := some (span.CreateChild (L.newSpanId span)) }) ++
            [("meta.type", Value.str "http_client"), ("name", Value.str "http_client")] } := by
  unfold clientSpan
  dsimp only
  rw [foldl_AddField]
  simp [Span.AddField, addField, Span.CreateChild]

theorem spanRoundTrip_passed (L : Lib) (wrt : RoundTripper) (span : Span) (r : Request) :
    (spanRoundTrip L wrt span r).passed = [outboundRequest L span r] := by
  unfold spanRoundTrip
  dsimp only
  rcases wrt (outboundRequest L span r) with ⟨_ | rsp, _ | e⟩ <;> rfl

theorem spanRoundTrip_created (L : Lib) (wrt : RoundTripper) (span : Span) (r : Request) :
    (spanRoundTrip L wrt span r).created = [span.CreateChild (L.newSpanId span)] := by
  unfold spanRoundTrip
  dsimp only
  rcases wrt (outboundRequest L span r) with ⟨_ | rsp, _ | e⟩ <;> rfl

theorem spanRoundTrip_ret (L : Lib) (wrt : RoundTripper) (span : Span) (r : Request)
    (h : wrt (outboundRequest L span r) ≠ (none, none)) :
    (spanRoundTrip L wrt span r).ret = some (wrt (outboundRequest L span r)) := by
  unfold spanRoundTrip
  dsimp only
  rcases hw : wrt (outboundRequest L span r) with ⟨_ | rsp, _ | e⟩
  · exact absurd hw h
  · rfl
  · rfl
  · rfl

theorem spanRoundTrip_sent (L : Lib) (wrt : RoundTripper) (span : Span) (r : Request) :
    (spanRoundTrip L wrt span r).sent =
      [Record.span
        { clientSpan L span r with
          fields := (clientSpan L span r).fields ++
            (match wrt (outboundRequest L span r) with
              | (_, some e) => [("error", Value.str e.msg)]
              | (some rsp, none) => [("response.status_code", Value.int rsp.StatusCode)]
              | (none, none) => []) ++
            [("duration_ms", Value.ms L.elapsed)] }] := by
  unfold spanRoundTrip
  dsimp only
  rcases wrt (outboundRequest L span r) with ⟨_ | rsp, _ | e⟩ <;>
    simp [Span.Send, Span.AddField, addField]

theorem headerGet_headerAdd_fresh (h : List (String × String)) (k v : String)
    (hfresh : ∀ w, (k, w) ∉ h) : headerGet (headerAdd h k v) k = v := by
  unfold headerAdd
  induction h with
  | nil => simp [headerGet]
  | cons p rest ih =>
    obtain ⟨k0, v0⟩ := p
    have hk : k0 ≠ k := fun e => hfresh v0 (by rw [e]; exact List.mem_cons_self _ _)
    have hrest : ∀ w, (k, w) ∉ rest := fun w hw => hfresh w (List.mem_cons_of_mem _ hw)
    simp [headerGet, hk, ih hrest]

theorem outboundRequest_header_fresh (L : Lib) (span : Span) (r : Request)
    (hfresh : ∀ w, (L.TracePropagationHTTPHeader, w) ∉ r.header) :
    headerGet (outboundRequest L span r).header L.TracePropagationHTTPHeader =
      (clientSpan L span r).SerializeHeaders :=
  headerGet_headerAdd_fresh r.header _ _ hfresh

/-! ## The claims on the client wrapper -/

/-- Whatever the wrapped transport returns for the one request it is handed, RoundTrip
returns exactly that pair when no span is active or the pair is not a nil response
together with a nil error. -/
theorem RoundTrip_returns_transport_pair (L : Lib) (wrt : RoundTripper) (r : Request) :
    ∃ q, (RoundTrip L wrt r).passed = [q] ∧
      (r.ctx.span = none ∨ wrt q ≠ (none, none) →
        (RoundTrip L wrt r).ret = some (wrt q)) := by
  unfold RoundTrip
  cases hs : r.ctx.span with
  | none => exact ⟨r, eventRoundTrip_passed L wrt r, fun _ => eventRoundTrip_ret L wrt r⟩
  | some span =>
    refine ⟨_, spanRoundTrip_passed L wrt span r, fun h => ?_⟩
    rcases h with h | h
    · cases h
    · exact spanRoundTrip_ret L wrt span r h

/-- C2 at a transport that returns a nil response together with a nil error: with an
active span RoundTrip does not return that pair, since reading the status code of the nil
response at line 146 panics; with no span in the context the same pair is returned. -/
theorem nil_pair_not_returned :
    (RoundTrip sampleLib nilTripper tracedRequest).passed.map nilTripper = [(none, none)] ∧
      (RoundTrip sampleLib nilTripper tracedRequest).ret = none ∧
      (RoundTrip sampleLib nilTripper plainRequest).ret = some (none, none) := by
  decide

/-- C3, as stated, fails: a transport error whose message is empty is a non-nil error, and
the "error" field of the record then holds the empty message, without and with an active
span. -/
theorem empty_error_message_recorded :
    (RoundTrip sampleLib silentErrTripper plainRequest).sent.map
        (fun rec => getField rec.fields "error") = [some (Value.str "")] ∧
      (RoundTrip sampleLib silentErrTripper tracedRequest).sent.map
        (fun rec => getField rec.fields "error") = [some (Value.str "")] := by
  decide

/-- C3, amended: for every outbound call through the wrapped round tripper one record is
sent, the Event when no span is active and the child Span otherwise; when the wrapped
transport returns a non-nil error the "error" field of that record holds the message of
that error, whatever the message is; when the transport returns no error the round trip
adds no "error" field: any such entry already comes from the fresh event or the request
properties. -/
theorem error_field_recorded (L : Lib) (wrt : RoundTripper) (r : Request) :
    ∃ q rec, (RoundTrip L wrt r).passed = [q] ∧ (RoundTrip L wrt r).sent = [rec] ∧
      rec.isEvent = r.ctx.span.isNone ∧
      match (wrt q).2 with
      | some e => getField rec.fields "error" = some (Value.str e.msg)
      | none => ∀ v, ("error", v) ∈ rec.fields →
          ∃ q0, ("error", v) ∈ L.NewEvent ++ L.GetRequestProps q0 := by
  unfold RoundTrip
  cases hs : r.ctx.span with
  | none =>
    refine ⟨r, _, eventRoundTrip_passed L wrt r, eventRoundTrip_sent L wrt r, rfl, ?_⟩
    rcases wrt r with ⟨resp, _ | e⟩
    · intro v hv
      refine ⟨r, ?_⟩
      simpa [Record.fields] using hv
    · show getField _ "error" = _
      simp only [Record.fields]
      rw [getField_append_other _ _ _ _ (by decide), getField_append_same]
  | some span =>
    refine ⟨_, _, spanRoundTrip_passed L wrt span r, spanRoundTrip_sent L wrt span r, rfl, ?_⟩
    rcases wrt (outboundRequest L span r) with ⟨_ | rsp, _ | e⟩
    · intro v hv
      refine ⟨r.WithContext { span := some (span.CreateChild (L.newSpanId span)) }, ?_⟩
      simp only [Record.fields, clientSpan_eq] at hv
      simp at hv
      exact List.mem_append_right _ hv
    · show getField _ "error" = _
      simp only [Record.fields]
      rw [getField_append_other _ _ _ _ (by decide), getField_append_same]
    · intro v hv
      refine ⟨r.WithContext { span := some (span.CreateChild (L.newSpanId span)) }, ?_⟩
      simp only [Record.fields, clientSpan_eq] at hv
      simp at hv
      exact List.mem_append_right _ hv
    · show getField _ "error" = _
      simp only [Record.fields]
      rw [getField_append_other _ _ _ _ (by decide), getField_append_same]

/-- C4: for every outbound request whose context holds no active span, RoundTrip sends
exactly one record, a standalone Event, whatever the transport returns; it creates no
span; and the one request it hands to the wrapped transport is the request it was given,
headers included. -/
theorem no_span_one_event (L : Lib) (wrt : RoundTripper) (r : Request)
    (h : r.ctx.span = none) :
    (∃ fs, (RoundTrip L wrt r).sent = [Record.event fs]) ∧
      (RoundTrip L wrt r).created = [] ∧ (RoundTrip L wrt r).passed = [r] := by
  unfold RoundTrip
  rw [h]
  exact ⟨⟨_, eventRoundTrip_sent L wrt r⟩, eventRoundTrip_created L wrt r,
    eventRoundTrip_passed L wrt r⟩

/-- Witness of C4: a call without span on which the transport times out. -/
theorem no_span_one_event_witness :
    plainRequest.ctx.span = none ∧
      (∃ fs, (RoundTrip sampleLib timeoutTripper plainRequest).sent = [Record.event fs]) ∧
      (RoundTrip sampleLib timeoutTripper plainRequest).created = [] ∧
      (RoundTrip sampleLib timeoutTripper plainRequest).passed = [plainRequest] :=
  ⟨rfl, no_span_one_event sampleLib timeoutTripper plainRequest rfl⟩

/-- C5 at a request that already carries a propagation header: one child span, with span
id "p1c", is created and sent, but the propagation header read from the request handed to
the transport is the value that was there before, and it deserializes to the span id
"old", not to the span id of the child. -/
theorem stale_propagation_header :
    (RoundTrip sampleLib okTripper resentRequest).created.map (fun s => s.spanId) = ["p1c"] ∧
      (RoundTrip sampleLib okTripper resentRequest).passed.map
        (fun q => q.header) =
          [[("X-Honeycomb-Trace", "v1:t0:old"), ("X-Honeycomb-Trace", "v1:t0:p1c")]] ∧
      (RoundTrip sampleLib okTripper resentRequest).passed.map
        (fun q => UnmarshalTraceContext (headerGet q.header "X-Honeycomb-Trace")) =
          [some { traceId := "t0", spanId := "old" }] := by
  decide

/-- C6 at a successful call without active span: the transport returns a response with
status 200, and the Event that is sent has a "duration_ms" field but no
"response.status_code" field; the span sent for the same call under an active span has
one. -/
theorem event_lacks_status_code :
    (RoundTrip sampleLib okTripper plainRequest).ret =
        some (some { StatusCode := 200, body := "0.5" }, none) ∧
      (RoundTrip sampleLib okTripper plainRequest).sent.map
        (fun rec => (getField rec.fields "duration_ms", getField rec.fields "response.status_code")) =
          [(some (Value.ms 7), none)] ∧
      (RoundTrip sampleLib okTripper tracedRequest).sent.map
        (fun rec => getField rec.fields "response.status_code") = [some (Value.int 200)] := by
  decide

/-! ## The claim on twitterize -/

/-- C10 at two inputs. When the lookup of a profile fails, no response is returned and
twitterize panics on the nil response instead of returning. When the same handle occurs
twice and its profile is found, the second replacement hits the text of the first link:
the links are nested and the second occurrence is left as plain text. -/
theorem twitterize_failing_inputs :
    twitterize failedGet "@bob" = none ∧
      twitterize foundGet "@a @a" =
        some "<a href=\"https://twitter.com/a\"><a href=\"https://twitter.com/a\">@a</a></a> @a" := by
  decide

end Hny
